import Mathlib

/-!
Verification development for the wxauto lite-bot message-handling pipeline.

The Python modules `token_utils.py`, `rate_limit.py`, `storage.py` and
`bot.py` are embedded shallowly below: pure functions become Lean
functions, the process state (dedupe cache, cooldown timestamps, failure
counters, session index, history files, image files, vision cache)
becomes explicit state records threaded through the operations, and each
call to `time.time()` inside one operation is modelled by a single integer
instant passed as a parameter.  Python `dict`s are modelled as total
functions with an explicit default or `Option` codomain; file contents as
a partial map from path strings to byte lists; Python string slicing,
truthiness and `or`-defaulting are modelled explicitly where the source
relies on them.
-/

set_option maxRecDepth 8192

namespace LiteBot

/-! ### Bytes, UTF-8, hex -/

/-- UTF-8 encoding of one Unicode code point, as in Python `str.encode("utf-8")`. -/
def utf8Encode (c : Nat) : List Nat :=
  if c < 128 then [c]
  else if c < 2048 then [192 + c / 64, 128 + c % 64]
  else if c < 65536 then [224 + c / 4096, 128 + c / 64 % 64, 128 + c % 64]
  else [240 + c / 262144, 128 + c / 4096 % 64, 128 + c / 64 % 64, 128 + c % 64]

/-- UTF-8 bytes of a string (Python `s.encode("utf-8")`). -/
def strBytes (s : String) : List Nat :=
  s.data.flatMap (fun ch => utf8Encode ch.toNat)

/-- Lower-case hexadecimal digit. -/
def hexChar (n : Nat) : Char :=
  if n < 10 then Char.ofNat (48 + n) else Char.ofNat (87 + n)

/-- Two lower-case hex digits of one byte. -/
def byteHex (b : Nat) : List Char := [hexChar (b / 16), hexChar (b % 16)]

/-- Hex string of a byte list, as in `hashlib`'s `hexdigest()`. -/
def bytesHex (bs : List Nat) : String := List.asString (bs.flatMap byteHex)

/-! ### 32-bit word helpers (machine integers as Nat mod 2^32) -/

def w32 (n : Nat) : Nat := n % 4294967296

def rotl32 (n r : Nat) : Nat := w32 (n * 2 ^ r) + n / 2 ^ (32 - r)

def rotr32 (n r : Nat) : Nat := n / 2 ^ r + w32 (n * 2 ^ (32 - r))

/-- Bitwise complement on 32 bits (all-ones mask minus the word). -/
def not32 (n : Nat) : Nat := 4294967295 - n

/-- Big-endian byte expansion of `n` to `k` bytes. -/
def beBytes : Nat → Nat → List Nat
  | 0, _ => []
  | k + 1, n => beBytes k (n / 256) ++ [n % 256]

/-- Big-endian 32-bit words from a byte list (4 bytes per word). -/
def beWords : List Nat → List Nat
  | b0 :: b1 :: b2 :: b3 :: rest =>
      (((b0 * 256 + b1) * 256 + b2) * 256 + b3) :: beWords rest
  | _ => []

/-- Merkle–Damgård padding shared by SHA-1 and SHA-256: append `0x80`,
zero bytes to 56 mod 64, then the 64-bit big-endian bit length. -/
def mdPad (msg : List Nat) : List Nat :=
  let l := msg.length
  let z := (120 - (l + 1) % 64) % 64
  msg ++ [128] ++ List.replicate z 0 ++ beBytes 8 (l * 8)

/-- Structural worker for `chunks64`; the fuel bounds the number of blocks. -/
def chunksGo : Nat → List Nat → List (List Nat)
  | 0, _ => []
  | _, [] => []
  | fuel + 1, b :: bs => (b :: bs).take 64 :: chunksGo fuel ((b :: bs).drop 64)

/-- Split a byte list into 64-byte blocks. -/
def chunks64 (bs : List Nat) : List (List Nat) := chunksGo bs.length bs

/-! ### SHA-1 -/

/-- One step of the SHA-1 message-schedule extension. -/
def sha1ExtendStep (ws : List Nat) : List Nat :=
  let n := ws.length
  let t := rotl32 (((ws.getD (n - 3) 0) ^^^ (ws.getD (n - 8) 0)) ^^^
                   ((ws.getD (n - 14) 0) ^^^ (ws.getD (n - 16) 0))) 1
  ws ++ [t]

def sha1Extend : Nat → List Nat → List Nat
  | 0, ws => ws
  | k + 1, ws => sha1Extend k (sha1ExtendStep ws)

/-- SHA-1 round function and constant for round `i`. -/
def sha1F (i b c d : Nat) : Nat :=
  if i < 20 then (b &&& c) ||| (not32 b &&& d)
  else if i < 40 then (b ^^^ c) ^^^ d
  else if i < 60 then ((b &&& c) ||| (b &&& d)) ||| (c &&& d)
  else (b ^^^ c) ^^^ d

def sha1K (i : Nat) : Nat :=
  if i < 20 then 1518500249
  else if i < 40 then 1859775393
  else if i < 60 then 2400959708
  else 3395469782

def sha1Round (ws : List Nat) (st : Nat × Nat × Nat × Nat × Nat) (i : Nat) :
    Nat × Nat × Nat × Nat × Nat :=
  let (a, b, c, d, e) := st
  let temp := w32 (rotl32 a 5 + sha1F i b c d + e + sha1K i + ws.getD i 0)
  (temp, a, rotl32 b 30, c, d)

def sha1Compress (h : Nat × Nat × Nat × Nat × Nat) (block : List Nat) :
    Nat × Nat × Nat × Nat × Nat :=
  let ws := sha1Extend 64 (beWords block)
  let (h0, h1, h2, h3, h4) := h
  let (a, b, c, d, e) := (List.range 80).foldl (sha1Round ws) h
  (w32 (h0 + a), w32 (h1 + b), w32 (h2 + c), w32 (h3 + d), w32 (h4 + e))

/-- SHA-1 digest bytes of a byte list. -/
def sha1Bytes (msg : List Nat) : List Nat :=
  let init : Nat × Nat × Nat × Nat × Nat :=
    (1732584193, 4023233417, 2562383102, 271733878, 3285377520)
  let (h0, h1, h2, h3, h4) := (chunks64 (mdPad msg)).foldl sha1Compress init
  beBytes 4 h0 ++ beBytes 4 h1 ++ beBytes 4 h2 ++ beBytes 4 h3 ++ beBytes 4 h4

/-- SHA-1 hex digest, as in Python `hashlib.sha1(b).hexdigest()`. -/
def sha1Hex (msg : List Nat) : String := bytesHex (sha1Bytes msg)

/-! ### SHA-256 -/

def sha256K : List Nat :=
  [1116352408, 1899447441, 3049323471, 3921009573, 961987163, 1508970993,
   2453635748, 2870763221, 3624381080, 310598401, 607225278, 1426881987,
   1925078388, 2162078206, 2614888103, 3248222580, 3835390401, 4022224774,
   264347078, 604807628, 770255983, 1249150122, 1555081692, 1996064986,
   2554220882, 2821834349, 2952996808, 3210313671, 3336571891, 3584528711,
   113926993, 338241895, 666307205, 773529912, 1294757372, 1396182291,
   1695183700, 1986661051, 2177026350, 2456956037, 2730485921, 2820302411,
   3259730800, 3345764771, 3516065817, 3600352804, 4094571909, 275423344,
   430227734, 506948616, 659060556, 883997877, 958139571, 1322822218,
   1537002063, 1747873779, 1955562222, 2024104815, 2227730452, 2361852424,
   2428436474, 2756734187, 3204031479, 3329325298]

def sha256ExtendStep (ws : List Nat) : List Nat :=
  let n := ws.length
  let w15 := ws.getD (n - 15) 0
  let w2 := ws.getD (n - 2) 0
  let s0 := (rotr32 w15 7 ^^^ rotr32 w15 18) ^^^ (w15 / 2 ^ 3)
  let s1 := (rotr32 w2 17 ^^^ rotr32 w2 19) ^^^ (w2 / 2 ^ 10)
  ws ++ [w32 (ws.getD (n - 16) 0 + s0 + ws.getD (n - 7) 0 + s1)]

def sha256Extend : Nat → List Nat → List Nat
  | 0, ws => ws
  | k + 1, ws => sha256Extend k (sha256ExtendStep ws)

def sha256Round (ws : List Nat)
    (st : Nat × Nat × Nat × Nat × Nat × Nat × Nat × Nat) (i : Nat) :
    Nat × Nat × Nat × Nat × Nat × Nat × Nat × Nat :=
  let (a, b, c, d, e, f, g, h) := st
  let s1 := (rotr32 e 6 ^^^ rotr32 e 11) ^^^ rotr32 e 25
  let ch := (e &&& f) ^^^ (not32 e &&& g)
  let temp1 := w32 (h + s1 + ch + sha256K.getD i 0 + ws.getD i 0)
  let s0 := (rotr32 a 2 ^^^ rotr32 a 13) ^^^ rotr32 a 22
  let maj := ((a &&& b) ^^^ (a &&& c)) ^^^ (b &&& c)
  let temp2 := w32 (s0 + maj)
  (w32 (temp1 + temp2), a, b, c, w32 (d + temp1), e, f, g)

def sha256Compress (h : Nat × Nat × Nat × Nat × Nat × Nat × Nat × Nat)
    (block : List Nat) : Nat × Nat × Nat × Nat × Nat × Nat × Nat × Nat :=
  let ws := sha256Extend 48 (beWords block)
  let (h0, h1, h2, h3, h4, h5, h6, h7) := h
  let (a, b, c, d, e, f, g, hh) := (List.range 64).foldl (sha256Round ws) h
  (w32 (h0 + a), w32 (h1 + b), w32 (h2 + c), w32 (h3 + d),
   w32 (h4 + e), w32 (h5 + f), w32 (h6 + g), w32 (h7 + hh))

/-- SHA-256 digest bytes of a byte list. -/
def sha256Bytes (msg : List Nat) : List Nat :=
  let init : Nat × Nat × Nat × Nat × Nat × Nat × Nat × Nat :=
    (1779033703, 3144134277, 1013904242, 2773480762,
     1359893119, 2600822924, 528734635, 1541459225)
  let (h0, h1, h2, h3, h4, h5, h6, h7) :=
    (chunks64 (mdPad msg)).foldl sha256Compress init
  beBytes 4 h0 ++ beBytes 4 h1 ++ beBytes 4 h2 ++ beBytes 4 h3 ++
  beBytes 4 h4 ++ beBytes 4 h5 ++ beBytes 4 h6 ++ beBytes 4 h7

/-- SHA-256 hex digest, as in Python `hashlib.sha256(b).hexdigest()`. -/
def sha256Hex (msg : List Nat) : String := bytesHex (sha256Bytes msg)

/-! ### Base64 (for `LlmClient.image_to_message` data URLs) -/

def b64Char (n : Nat) : Char :=
  "ABCDEFGHIJKLMNOPQRSTUVWXYZabcdefghijklmnopqrstuvwxyz0123456789+/".data.getD n '='

def base64Chars : List Nat → List Char
  | a :: b :: c :: rest =>
      b64Char (a / 4) :: b64Char (a % 4 * 16 + b / 16) ::
      b64Char (b % 16 * 4 + c / 64) :: b64Char (c % 64) :: base64Chars rest
  | [a, b] =>
      [b64Char (a / 4), b64Char (a % 4 * 16 + b / 16), b64Char (b % 16 * 4), '=']
  | [a] => [b64Char (a / 4), b64Char (a % 4 * 16), '=', '=']
  | [] => []

/-- Base64 encoding, as in Python `base64.b64encode`. -/
def base64Encode (bs : List Nat) : String := List.asString (base64Chars bs)

/-! ### `token_utils.py` -/

/-- Python `len(text)` on a string counts code points, i.e. `s.data.length`. -/
def pyLen (s : String) : Nat := s.data.length

/-- `estimate_tokens(text)`: 0 for empty text, else `max(1, ceil(len(text)/4))`. -/
def estimate_tokens (text : String) : Nat :=
  if pyLen text = 0 then 0 else max 1 ((pyLen text + 3) / 4)

/-- Message content: either a plain string or a list of typed parts, the
shapes `bot.py` actually passes around (`{"type": "text", ...}` and
`{"type": "image_url", ...}` items). -/
inductive Part where
  | text (s : String)
  | image (url : String)
deriving DecidableEq

inductive MContent where
  | str (s : String)
  | parts (items : List Part)
deriving DecidableEq

structure ChatMsg where
  role : String
  content : MContent
deriving DecidableEq

/-- `estimate_message_tokens(message)`: for list content, sum the estimates
of `text`-typed parts only; for string content, estimate the string. -/
def estimate_message_tokens (m : ChatMsg) : Nat :=
  match m.content with
  | .parts items =>
      (items.map (fun it => match it with
        | .text s => estimate_tokens s
        | .image _ => 0)).sum
  | .str s => estimate_tokens s

/-- `estimate_messages_tokens(messages)`: sum of per-message estimates. -/
def estimate_messages_tokens (ms : List ChatMsg) : Nat :=
  (ms.map estimate_message_tokens).sum

/-- Python slicing `s[:n]`: a nonnegative bound keeps the first `n` code
points; a negative bound drops the last `-n` (clamped at the empty string). -/
def pySlice (s : String) (n : Int) : String :=
  List.asString (s.data.take (if 0 ≤ n then n.toNat else pyLen s - (-n).toNat))

/-- `truncate_text_to_tokens(text, max_tokens)`: keep the text when its
estimate fits, else slice to `max_tokens * 4` characters (Python slicing,
so a negative product slices from the end). -/
def truncate_text_to_tokens (text : String) (max_tokens : Int) : String :=
  if (estimate_tokens text : Int) ≤ max_tokens then text
  else pySlice text (max_tokens * 4)

/-! ### `config.py` (the fields the core logic reads) -/

structure PersonaConfig where
  global_prompt : String := "你是一个有用的微信助手。"
  private_prompt : Option String := none
  group_prompt : Option String := none
deriving DecidableEq

/-- `PersonaConfig.prompt_for_scope`: a scope-specific prompt is appended
after a newline when it is set (Python truthiness: empty string counts as
unset). -/
def PersonaConfig.prompt_for_scope (p : PersonaConfig) (scope : String) : String :=
  if scope = "group" ∧ p.group_prompt.getD "" ≠ "" then
    p.global_prompt ++ "\n" ++ p.group_prompt.getD ""
  else if scope = "private" ∧ p.private_prompt.getD "" ≠ "" then
    p.global_prompt ++ "\n" ++ p.private_prompt.getD ""
  else p.global_prompt

structure TriggerConfig where
  private_mode : String := "always"
  private_keywords : List String := []
  private_regex : Option String := none
  group_mode : String := "mention"
  group_keywords : List String := []
deriving DecidableEq

structure ApiConfig where
  timeout_seconds : Int := 60
  stream : Bool := false
  max_output_tokens : Int := 800
deriving DecidableEq

structure LimitsConfig where
  token_budget : Int := 4096
  min_reserved_output_tokens : Int := 256
  max_group_output_tokens : Int := 512
  max_private_output_tokens : Int := 800
  max_single_message_tokens : Int := 2048
deriving DecidableEq

structure StorageConfig where
  base_dir : String := "data/wxauto_lite_bot"
deriving DecidableEq

structure DedupeConfig where
  window_seconds : Int := 60
deriving DecidableEq

structure RateLimitConfig where
  session_cooldown_seconds : Int := 3
  user_cooldown_seconds : Int := 2
deriving DecidableEq

structure FailureConfig where
  max_consecutive_failures : Nat := 3
  cooldown_seconds : Int := 60
  fallback_reply : String := "抱歉，我暂时无法回复，请稍后再试。"
deriving DecidableEq

structure VisionConfig where
  enable_private : Bool := true
  enable_group : Bool := true
deriving DecidableEq

structure ReplyConfig where
  private_fixed_reply : Option String := none
  group_fixed_reply : Option String := none
deriving DecidableEq

structure BotConfig where
  persona : PersonaConfig := {}
  trigger : TriggerConfig := {}
  api : ApiConfig := {}
  limits : LimitsConfig := {}
  storage : StorageConfig := {}
  dedupe : DedupeConfig := {}
  rate_limit : RateLimitConfig := {}
  failure : FailureConfig := {}
  vision : VisionConfig := {}
  reply : ReplyConfig := {}
  self_user_id : Option String := none
deriving DecidableEq

/-! ### `models.py` -/

structure IncomingMessage where
  message_id : String
  timestamp : Int
  sender_id : String
  sender_name : String
  content : Option String
  msg_type : String
  is_group : Bool
  group_id : Option String := none
  group_name : Option String := none
  is_at : Bool := false
  conversation_id : Option String := none
  image_bytes : Option (List Nat) := none
  image_mime : Option String := none
deriving DecidableEq

structure SessionInfo where
  scope : String
  session_id : String
  session_key : String
  display_name : String
deriving DecidableEq

/-! ### `rate_limit.py` -/

/-- `DedupeCache`: `cache` maps a key to the time it was last recorded
(`None` for absent keys). -/
structure DedupeCache where
  window_seconds : Int
  cache : String → Option Int

/-- `DedupeCache.seen_recently`: prune entries older than the window, then
report (and on a miss record) the key. -/
def DedupeCache.seen_recently (c : DedupeCache) (now : Int) (key : String) :
    Bool × DedupeCache :=
  let pruned : String → Option Int := fun k =>
    match c.cache k with
    | some ts => if now - ts > c.window_seconds then none else some ts
    | none => none
  match pruned key with
  | some _ => (true, { c with cache := pruned })
  | none => (false, { c with cache := fun k => if k = key then some now else pruned k })

/-- `CooldownManager`: `last_hit` is a `defaultdict(float)`, modelled as a
total map defaulting to 0. -/
structure CooldownManager where
  cooldown_seconds : Int
  last_hit : String → Int

/-- `CooldownManager.in_cooldown`: inside the window report `true` without
touching any state; otherwise record `now` for the key and report `false`. -/
def CooldownManager.in_cooldown (c : CooldownManager) (now : Int) (key : String) :
    Bool × CooldownManager :=
  if now - c.last_hit key < c.cooldown_seconds then (true, c)
  else (false, { c with last_hit := fun k => if k = key then now else c.last_hit k })

/-- `FailureTracker`: `failures` counts consecutive failures per key;
`cooldowns` maps a key to its `blocked_until` instant, with 0 standing for
"absent" (Python reads it with `.get(key, 0.0)` and treats 0.0 as falsy,
so `pop` is modelled by resetting to 0). -/
structure FailureTracker where
  max_failures : Nat
  cooldown_seconds : Int
  failures : String → Nat
  cooldowns : String → Int

/-- `FailureTracker.register_failure`: increment the counter; at or above
the threshold set `blocked_until = now + cooldown_seconds`. -/
def FailureTracker.register_failure (tr : FailureTracker) (now : Int) (key : String) :
    FailureTracker :=
  let failures' : String → Nat := fun k =>
    if k = key then tr.failures k + 1 else tr.failures k
  if tr.max_failures ≤ failures' key then
    { tr with
      failures := failures'
      cooldowns := fun k => if k = key then now + tr.cooldown_seconds else tr.cooldowns k }
  else { tr with failures := failures' }

/-- `FailureTracker.register_success`: zero the counter and drop the
`blocked_until` entry. -/
def FailureTracker.register_success (tr : FailureTracker) (key : String) :
    FailureTracker :=
  { tr with
    failures := fun k => if k = key then 0 else tr.failures k
    cooldowns := fun k => if k = key then 0 else tr.cooldowns k }

/-- `FailureTracker.is_blocked`: blocked exactly while `blocked_until` is
set (nonzero, Python truthiness) and `now` has not reached it. -/
def FailureTracker.is_blocked (tr : FailureTracker) (now : Int) (key : String) : Bool :=
  let until' := tr.cooldowns key
  if until' ≠ 0 ∧ now < until' then true else false

/-! ### `storage.py` -/

structure StoredImage where
  relative_path : String
  sha256 : String
  size : Nat
  mime_type : String
deriving DecidableEq

structure SessionEntry where
  id : String
  display_name : String
  scope : String
  key : String
deriving DecidableEq

/-- `SessionIndex`: the persisted `session_index.json` mapping
`"scope:key"` to its session entry. -/
structure SessionIndex where
  sessions : String → Option SessionEntry

/-- `SessionIndex.get_or_create`: return the stored id when the
`"scope:key"` entry exists, else allocate
`sha1("scope:key").hexdigest()[:16]`, persist the entry, and return it. -/
def SessionIndex.get_or_create (idx : SessionIndex) (scope key display_name : String) :
    String × SessionIndex :=
  let session_key := scope ++ ":" ++ key
  match idx.sessions session_key with
  | some entry => (entry.id, idx)
  | none =>
    let session_id := pySlice (sha1Hex (strBytes session_key)) 16
    let entry : SessionEntry := ⟨session_id, display_name, scope, key⟩
    (session_id,
     ⟨fun k => if k = session_key then some entry else idx.sessions k⟩)

/-- The `image` sub-dict of a history record. -/
structure ImageMeta where
  path : String
  sha256 : String
  size : Nat
  mime : String
deriving DecidableEq

/-- One history record as written by `bot.py` (`type` is `rtype` here,
since `type` is reserved in Lean). -/
structure HistRecord where
  timestamp : Int
  direction : String
  sender : String
  rtype : String
  content : Option String
  message_id : String
  session_key : String
  image : Option ImageMeta := none
deriving DecidableEq

/-- The media directory, as a map from path strings to file bytes. -/
structure FileSys where
  files : String → Option (List Nat)

/-- `SessionStore`: base directory, session index, per-(scope, session id)
history logs, and the image files.  History lines are stored structurally,
so the JSONL round-trip is the identity and `load_history`'s
malformed-line skipping has no counterpart here. -/
structure SessionStore where
  base_dir : String
  index : SessionIndex
  histories : String → String → List HistRecord
  files : FileSys

def SessionStore.resolve_session (store : SessionStore)
    (scope key display_name : String) : String × SessionStore :=
  ((store.index.get_or_create scope key display_name).1,
   { store with index := (store.index.get_or_create scope key display_name).2 })

/-- `SessionStore.append_history`: append one record to the session's log. -/
def SessionStore.append_history (store : SessionStore) (scope session_id : String)
    (record : HistRecord) : SessionStore :=
  { store with
    histories := fun s i =>
      if s = scope ∧ i = session_id then store.histories s i ++ [record]
      else store.histories s i }

/-- `SessionStore.load_history`: the session's log in insertion order. -/
def SessionStore.load_history (store : SessionStore) (scope session_id : String) :
    List HistRecord :=
  store.histories scope session_id

/-- Python `mime_type.split("/")` on the character level. -/
def splitOnChar (sep : Char) : List Char → List (List Char)
  | [] => [[]]
  | c :: rest =>
    let r := splitOnChar sep rest
    if c = sep then [] :: r
    else
      match r with
      | h :: t => (c :: h) :: t
      | [] => [[c]]

/-- File name chosen by `save_image`: the stable name from `message_id`
(Python `or`: empty/absent falls back to the SHA-256 prefix) plus the
extension derived from the MIME type. -/
def image_file_name (image_bytes : List Nat) (mime_type : String)
    (message_id : Option String) : String :=
  let sha256 := sha256Hex image_bytes
  let extension :=
    if mime_type.data.contains '/' then
      List.asString ((splitOnChar '/' mime_type.data).getLastD [])
    else "bin"
  let stable_name :=
    match message_id with
    | some m => if m ≠ "" then m else pySlice sha256 16
    | none => pySlice sha256 16
  stable_name ++ "." ++ extension

/-- Target path of the `save_image` write:
`base_dir / scope / session_id / "images" / filename`. -/
def image_target_path (store : SessionStore) (scope session_id : String)
    (image_bytes : List Nat) (mime_type : String) (message_id : Option String) : String :=
  store.base_dir ++ "/" ++ scope ++ "/" ++ session_id ++ "/images/" ++
    image_file_name image_bytes mime_type message_id

/-- `SessionStore.save_image`: hash the bytes, derive the stable file
name, write only if the target is absent, and return the descriptor
whether or not the write occurred.  `os.path.relpath(target, base_dir)`
of a path built under `base_dir` is the suffix below `base_dir`. -/
def SessionStore.save_image (store : SessionStore) (scope session_id : String)
    (image_bytes : List Nat) (mime_type : String) (message_id : Option String) :
    StoredImage × SessionStore :=
  let sha256 := sha256Hex image_bytes
  let filename := image_file_name image_bytes mime_type message_id
  let target_path := image_target_path store scope session_id image_bytes mime_type message_id
  let fs : FileSys :=
    if (store.files.files target_path).isSome then store.files
    else ⟨fun p => if p = target_path then some image_bytes else store.files.files p⟩
  let relative_path := scope ++ "/" ++ session_id ++ "/images/" ++ filename
  (⟨relative_path, sha256, image_bytes.length, mime_type⟩, { store with files := fs })

/-! ### `bot.py` -/

/-- Python string truthiness: `None` and `""` are falsy. -/
def truthyS : Option String → Option String
  | some s => if s = "" then none else some s
  | none => none

/-- Python `a or b` over an optional string and a string default. -/
def pyOrS (a : Option String) (b : String) : String := (truthyS a).getD b

/-- Python f-string rendering of an optional string (`None` prints as
`"None"`). -/
def pyStr : Option String → String
  | some s => s
  | none => "None"

/-- `WxAutoBot._is_self_message`. -/
def is_self_message (cfg : BotConfig) (msg : IncomingMessage) : Bool :=
  match truthyS cfg.self_user_id with
  | none => false
  | some sid => msg.sender_id = sid

/-- `WxAutoBot._resolve_session`: scope from `is_group`, key from the
truthiness chain `conversation_id` / `group_id or group_name or sender_id`
/ `sender_id`, then get-or-create in the index. -/
def resolve_session (store : SessionStore) (msg : IncomingMessage) :
    SessionInfo × SessionStore :=
  let scope := if msg.is_group then "group" else "private"
  let session_key :=
    match truthyS msg.conversation_id with
    | some c => c
    | none =>
      if msg.is_group then pyOrS msg.group_id (pyOrS msg.group_name msg.sender_id)
      else msg.sender_id
  let display_name := if msg.is_group then msg.group_name.getD "" else msg.sender_name
  (⟨scope, (store.resolve_session scope session_key display_name).1, session_key,
    display_name⟩,
   (store.resolve_session scope session_key display_name).2)

/-- `WxAutoBot._hash_content` (timestamps are modelled as integers, so the
f-string renders them without a decimal point). -/
def hash_content (msg : IncomingMessage) : String :=
  sha1Hex (strBytes
    (msg.sender_id ++ ":" ++ pyStr msg.content ++ ":" ++ toString msg.timestamp))

/-- The dedupe key `msg.message_id or self._hash_content(msg)`. -/
def unique_key_of (msg : IncomingMessage) : String :=
  if msg.message_id ≠ "" then msg.message_id else hash_content msg

/-- Python `str.lower`, restricted to the ASCII mapping of `Char.toLower`. -/
def strLower (s : String) : String := List.asString (s.data.map Char.toLower)

/-- Python substring membership `needle in hay`. -/
def strContainsSub (hay needle : List Char) : Bool :=
  match hay with
  | [] => needle.isEmpty
  | _ :: t => needle.isPrefixOf hay || strContainsSub t needle

/-- `WxAutoBot._match_keywords`: falsy content or empty keyword list match
nothing; otherwise case-insensitive substring search. -/
def match_keywords (content : Option String) (keywords : List String) : Bool :=
  match truthyS content with
  | none => false
  | some c =>
    if keywords = [] then false
    else
      let lowered := strLower c
      keywords.any (fun kw => strContainsSub lowered.data (strLower kw).data)

/-- `WxAutoBot._should_trigger`.  `reSearch pattern text` is the Python
regular-expression engine (`bool(re.search(pattern, text))`) as an
uninterpreted Boolean-valued parameter. -/
def should_trigger (cfg : BotConfig) (reSearch : String → String → Bool)
    (msg : IncomingMessage) : Bool :=
  if msg.is_group then
    if cfg.trigger.group_mode = "mention_keyword" then
      msg.is_at && match_keywords msg.content cfg.trigger.group_keywords
    else msg.is_at
  else
    if cfg.trigger.private_mode = "always" then true
    else if cfg.trigger.private_mode = "keyword" then
      match_keywords msg.content cfg.trigger.private_keywords
    else if cfg.trigger.private_mode = "regex" ∧
        (truthyS cfg.trigger.private_regex).isSome then
      reSearch ((truthyS cfg.trigger.private_regex).getD "") (msg.content.getD "")
    else false

/-- `LlmClient.image_to_message`: a data-URL image part. -/
def image_to_message (image_bytes : List Nat) (mime_type : String) : Part :=
  .image ("data:" ++ mime_type ++ ";base64," ++ base64Encode image_bytes)

/-- `WxAutoBot._history_to_messages`. -/
def history_to_messages (history : List HistRecord) : List ChatMsg :=
  history.map fun record =>
    let role := if record.direction = "sent" then "assistant" else "user"
    let content :=
      if record.rtype = "image" then
        "[图片] hash=" ++ (record.image.map (fun im => im.sha256)).getD ""
      else (truthyS record.content).getD ""
    let content :=
      if record.sender ≠ "" ∧ role = "user" then record.sender ++ ": " ++ content
      else content
    ⟨role, .str content⟩

/-- The guard `msg.msg_type == "image" and msg.image_bytes and
msg.image_mime` (empty bytes and empty mime are falsy). -/
def has_image_payload (msg : IncomingMessage) : Bool :=
  decide (msg.msg_type = "image") && decide (msg.image_bytes.getD [] ≠ []) &&
    (truthyS msg.image_mime).isSome

/-- `WxAutoBot._build_latest_message`. -/
def build_latest_message (msg : IncomingMessage) : List ChatMsg :=
  if has_image_payload msg then
    let text_prompt := pyOrS msg.content "请描述这张图片。"
    [⟨"user", .parts [.text text_prompt,
        image_to_message (msg.image_bytes.getD []) (msg.image_mime.getD "")]⟩]
  else [⟨"user", .str ((truthyS msg.content).getD "")⟩]

/-- `WxAutoBot._should_process_image`. -/
def should_process_image (cfg : BotConfig) (msg : IncomingMessage) : Bool :=
  if msg.is_group then cfg.vision.enable_group && msg.is_at
  else cfg.vision.enable_private

/-- `WxAutoBot._max_output_tokens`. -/
def max_output_tokens (cfg : BotConfig) (scope : String) : Int :=
  if scope = "group" then min cfg.limits.max_group_output_tokens cfg.api.max_output_tokens
  else min cfg.limits.max_private_output_tokens cfg.api.max_output_tokens

/-- `WxAutoBot._fixed_reply_for_scope`. -/
def fixed_reply_for_scope (cfg : BotConfig) (scope : String) : Option String :=
  if scope = "group" then cfg.reply.group_fixed_reply else cfg.reply.private_fixed_reply

/-- `WxAutoBot._truncate_latest`: mutate the first message, truncating its
string content, or each `text`-typed part of its list content, to the
effective budget.  `budget or max_single_message_tokens` makes an absent
or zero budget fall back to the single-message cap (Python falsiness of
`None` and `0`). -/
def truncate_latest (limits : LimitsConfig) (latest_messages : List ChatMsg)
    (budget : Option Int) : List ChatMsg :=
  match latest_messages with
  | [] => []
  | message :: rest =>
    let b :=
      match budget with
      | none => limits.max_single_message_tokens
      | some v => if v = 0 then limits.max_single_message_tokens else v
    match message.content with
    | .parts items =>
        ⟨message.role, .parts (items.map fun it =>
          match it with
          | .text s => Part.text (truncate_text_to_tokens s b)
          | .image u => Part.image u)⟩ :: rest
    | .str s => ⟨message.role, .str (truncate_text_to_tokens s b)⟩ :: rest

/-- The token estimate the history walk applies to `record.get("content",
"")`: `estimate_tokens` uses only `len` and truthiness, so on list content
it measures the number of parts. -/
def estimate_tokens_py (content : MContent) : Nat :=
  match content with
  | .str s => estimate_tokens s
  | .parts items => if items.length = 0 then 0 else max 1 ((items.length + 3) / 4)

/-- The greedy most-recent-first history walk of `_trim_context`, acting on
the reversed history: keep a record while it fits the remaining budget,
stop at the first record that does not. -/
def walk_history (remaining : Int) : List ChatMsg → List ChatMsg
  | [] => []
  | record :: rest =>
    let record_tokens : Int := estimate_tokens_py record.content
    if record_tokens ≤ remaining then
      record :: walk_history (remaining - record_tokens) rest
    else []

/-- `WxAutoBot._trim_context`. -/
def trim_context (limits : LimitsConfig)
    (system_messages history_messages latest_messages : List ChatMsg)
    (budget : Int) : List ChatMsg :=
  let system_tokens : Int := estimate_messages_tokens system_messages
  let latest_tokens : Int := estimate_messages_tokens latest_messages
  let latest_messages1 :=
    if latest_tokens > limits.max_single_message_tokens then
      truncate_latest limits latest_messages none
    else latest_messages
  let latest_tokens1 : Int := estimate_messages_tokens latest_messages1
  let total1 := system_tokens + latest_tokens1
  let latest_messages2 :=
    if total1 > budget then
      truncate_latest limits latest_messages1 (some (budget - system_tokens))
    else latest_messages1
  let latest_tokens2 : Int := estimate_messages_tokens latest_messages2
  let total2 := system_tokens + latest_tokens2
  let remaining := budget - total2
  let trimmed_history := (walk_history remaining history_messages.reverse).reverse
  system_messages ++ trimmed_history ++ latest_messages2

/-- Result of `WxAutoBot._generate_reply`: the reply text plus the two
pieces of bot state the method mutates. -/
structure GenResult where
  reply : String
  tracker : FailureTracker
  vision_cache : String → Option String

/-- `WxAutoBot._generate_reply`.  `send` is `LlmClient.send` as an
uninterpreted function from the assembled messages to either the reply
text or a raised error (timeout, transport failure, or the
`raise_for_status` of a non-success HTTP response); the `try` block around
it is the `match` on its result, so no error escapes. -/
def generate_reply (cfg : BotConfig) (tracker : FailureTracker)
    (vision_cache : String → Option String) (loaded_history : List HistRecord)
    (msg : IncomingMessage) (session : SessionInfo) (image_meta : Option StoredImage)
    (send : List ChatMsg → Except String String) (now : Int) : GenResult :=
  match truthyS (fixed_reply_for_scope cfg session.scope) with
  | some fixed => ⟨fixed, tracker, vision_cache⟩
  | none =>
    if msg.msg_type = "image" ∧ should_process_image cfg msg = false then
      ⟨"", tracker, vision_cache⟩
    else
      let history :=
        if msg.message_id ≠ "" then
          loaded_history.filter (fun r => r.message_id ≠ msg.message_id)
        else loaded_history
      let history_messages := history_to_messages history
      let system_message : ChatMsg := ⟨"system", .str (cfg.persona.prompt_for_scope session.scope)⟩
      let latest_user := build_latest_message msg
      let response_tokens := max_output_tokens cfg session.scope
      let budget := cfg.limits.token_budget - response_tokens
      if budget ≤ 0 then ⟨cfg.failure.fallback_reply, tracker, vision_cache⟩
      else
        let cached :=
          match image_meta with
          | some im => vision_cache im.sha256
          | none => none
        match cached with
        | some c => ⟨truncate_text_to_tokens c response_tokens, tracker, vision_cache⟩
        | none =>
          let messages := trim_context cfg.limits [system_message] history_messages latest_user budget
          match send messages with
          | .error _ =>
              ⟨cfg.failure.fallback_reply,
               tracker.register_failure now session.session_id, vision_cache⟩
          | .ok raw =>
              let tracker1 := tracker.register_success session.session_id
              let reply := raw.trim
              if reply = "" then ⟨"", tracker1, vision_cache⟩
              else
                let vision_cache1 :=
                  match image_meta with
                  | some im => fun k => if k = im.sha256 then some reply else vision_cache k
                  | none => vision_cache
                ⟨truncate_text_to_tokens reply response_tokens, tracker1, vision_cache1⟩

/-- The record `_append_history` writes for an inbound event (`image` key
present only when media was saved). -/
def inbound_record (msg : IncomingMessage) (session : SessionInfo)
    (image_meta : Option StoredImage) : HistRecord :=
  { timestamp := msg.timestamp
    direction := "received"
    sender := msg.sender_name
    rtype := msg.msg_type
    content := msg.content
    message_id := msg.message_id
    session_key := session.session_key
    image := image_meta.map fun im => ⟨im.relative_path, im.sha256, im.size, im.mime_type⟩ }

/-- The record `_append_reply` writes for an outbound reply. -/
def reply_record (session : SessionInfo) (content : String) (now : Int) : HistRecord :=
  { timestamp := now
    direction := "sent"
    sender := "bot"
    rtype := "text"
    content := some content
    message_id := sha1Hex (strBytes ("reply:" ++ content ++ ":" ++ toString now))
    session_key := session.session_key }

/-- The media-persistence step of `handle_message`. -/
def image_meta_step (store : SessionStore) (session : SessionInfo)
    (msg : IncomingMessage) : Option StoredImage × SessionStore :=
  if has_image_payload msg then
    (some (store.save_image session.scope session.session_id
        (msg.image_bytes.getD []) (msg.image_mime.getD "") (some msg.message_id)).1,
     (store.save_image session.scope session.session_id
        (msg.image_bytes.getD []) (msg.image_mime.getD "") (some msg.message_id)).2)
  else (none, store)

/-- The whole mutable state owned by `WxAutoBot`. -/
structure BotState where
  store : SessionStore
  dedupe : DedupeCache
  session_cooldown : CooldownManager
  user_cooldown : CooldownManager
  failure_tracker : FailureTracker
  vision_cache : String → Option String

/-- `WxAutoBot.handle_message`: the full per-event pipeline.  The returned
list collects the `adapter.send_text` calls. -/
def handle_message (cfg : BotConfig) (reSearch : String → String → Bool)
    (st : BotState) (msg : IncomingMessage)
    (send : List ChatMsg → Except String String) (now : Int) :
    BotState × List (SessionInfo × String) :=
  if is_self_message cfg msg then (st, [])
  else
    let session := (resolve_session st.store msg).1
    let store1 := (resolve_session st.store msg).2
    let uk := unique_key_of msg
    let seen := (st.dedupe.seen_recently now uk).1
    let dedupe1 := (st.dedupe.seen_recently now uk).2
    let st1 := { st with store := store1, dedupe := dedupe1 }
    if seen then (st1, [])
    else if st1.failure_tracker.is_blocked now session.session_id then (st1, [])
    else
      let should_reply := should_trigger cfg reSearch msg
      let image_meta := (image_meta_step store1 session msg).1
      let store2 := (image_meta_step store1 session msg).2
      let store3 := store2.append_history session.scope session.session_id
        (inbound_record msg session image_meta)
      let st2 := { st1 with store := store3 }
      if should_reply = false then (st2, [])
      else
        let cd1 := (st2.session_cooldown.in_cooldown now session.session_id).1
        let st3 := { st2 with
          session_cooldown := (st2.session_cooldown.in_cooldown now session.session_id).2 }
        if cd1 then (st3, [])
        else
          let cd2 := (st3.user_cooldown.in_cooldown now msg.sender_id).1
          let st4 := { st3 with
            user_cooldown := (st3.user_cooldown.in_cooldown now msg.sender_id).2 }
          if cd2 then (st4, [])
          else
            let loaded := st4.store.load_history session.scope session.session_id
            let g := generate_reply cfg st4.failure_tracker st4.vision_cache loaded
              msg session image_meta send now
            let st5 := { st4 with failure_tracker := g.tracker, vision_cache := g.vision_cache }
            if g.reply ≠ "" then
              let st6 := { st5 with
                store := st5.store.append_history session.scope session.session_id
                  (reply_record session g.reply now) }
              (st6, [(session, g.reply)])
            else (st5, [])

/-- The store after the pipeline's inbound-history append: media persisted
(when the event carries an image) and the inbound record appended. -/
def store_after_inbound (st : BotState) (msg : IncomingMessage) : SessionStore :=
  (image_meta_step (resolve_session st.store msg).2 (resolve_session st.store msg).1
      msg).2.append_history
    (resolve_session st.store msg).1.scope (resolve_session st.store msg).1.session_id
    (inbound_record msg (resolve_session st.store msg).1
      (image_meta_step (resolve_session st.store msg).2 (resolve_session st.store msg).1 msg).1)

/-- The `_generate_reply` result the pipeline computes after the inbound
append, when the trigger and both cooldowns let it through. -/
def gen_after (cfg : BotConfig) (st : BotState) (msg : IncomingMessage)
    (send : List ChatMsg → Except String String) (now : Int) : GenResult :=
  generate_reply cfg st.failure_tracker st.vision_cache
    ((store_after_inbound st msg).load_history (resolve_session st.store msg).1.scope
      (resolve_session st.store msg).1.session_id)
    msg (resolve_session st.store msg).1
    (image_meta_step (resolve_session st.store msg).2 (resolve_session st.store msg).1 msg).1
    send now

/-- The shape of the message list `_build_latest_message` produces: one
user message whose content is either a plain string or a two-part list of
one text part and one image part. -/
def latestShape (l : List ChatMsg) : Prop :=
  ∃ role, (∃ s, l = [⟨role, MContent.str s⟩]) ∨
    ∃ t u, l = [⟨role, MContent.parts [Part.text t, Part.image u]⟩]

example : estimate_tokens "" = 0 := by decide
example : estimate_tokens "abcde" = 2 := by decide
example : truncate_text_to_tokens "aaaaaaaaaa" 2 = "aaaaaaaa" := by decide
example : truncate_text_to_tokens "aaaaaaaaaa" (-1) = "aaaaaa" := by decide

example : sha1Hex (strBytes "abc") = "a9993e364706816aba3e25717850c26c9cd0d89d" := by decide
example : sha1Hex (strBytes "") = "da39a3ee5e6b4b0d3255bfef95601890afd80709" := by decide
example : sha256Hex (strBytes "abc") =
    "ba7816bf8f01cfea414140de5dae2223b00361a396177a9cb410ff61f20015ad" := by decide
example : sha256Hex [1, 2, 3] =
    "039058c6f2c0cb492c533b0a4d14ef77cc0f78abccced5287d84a1a2011cfb81" := by decide
example : (sha1Hex (strBytes "private:u1")).take 16 = "0543017a9759e385" := by decide
example : base64Encode (strBytes "Man") = "TWFu" := by decide
example : base64Encode (strBytes "Ma") = "TWE=" := by decide

/-! ### Claim theorems -/

/-- One `register_failure` always increments the key's counter by one. -/
lemma register_failure_failures_eq (tr : FailureTracker) (now : Int) (key : String) :
    (tr.register_failure now key).failures key = tr.failures key + 1 := by
  by_cases hthr : tr.max_failures ≤ tr.failures key + 1 <;>
    simp [FailureTracker.register_failure, hthr]

/-- Below the threshold after increment, `register_failure` leaves every
other key's counter alone. -/
lemma register_failure_failures_other (tr : FailureTracker) (now : Int) (key k : String)
    (hk : k ≠ key) : (tr.register_failure now key).failures k = tr.failures k := by
  by_cases hthr : tr.max_failures ≤ tr.failures key + 1 <;>
    simp [FailureTracker.register_failure, hthr, hk]

/-- At or above the threshold, `register_failure` sets the key's
`blocked_until` to `now + cooldown_seconds`. -/
lemma register_failure_cooldowns_eq (tr : FailureTracker) (now : Int) (key : String)
    (h : tr.max_failures ≤ tr.failures key) :
    (tr.register_failure now key).cooldowns key = now + tr.cooldown_seconds := by
  have hthr : tr.max_failures ≤ tr.failures key + 1 := by omega
  simp [FailureTracker.register_failure, hthr]

/-- `is_blocked` is false once `blocked_until` has passed. -/
lemma is_blocked_false_of_passed (tr : FailureTracker) (now : Int) (key : String)
    (h : tr.cooldowns key ≤ now) : tr.is_blocked now key = false := by
  have hneg : ¬ (tr.cooldowns key ≠ 0 ∧ now < tr.cooldowns key) := by
    rintro ⟨-, h2⟩
    omega
  simp only [FailureTracker.is_blocked]
  rw [if_neg hneg]

/-- `is_blocked` is true while a nonzero `blocked_until` lies ahead. -/
lemma is_blocked_true_of_ahead (tr : FailureTracker) (now : Int) (key : String)
    (h1 : tr.cooldowns key ≠ 0) (h2 : now < tr.cooldowns key) :
    tr.is_blocked now key = true := by
  simp only [FailureTracker.is_blocked]
  rw [if_pos ⟨h1, h2⟩]

/-- C3: once `blocked_until` has passed without an intervening
`register_success` (the counter still sits at or above the threshold),
`is_blocked` returns false (`is_blocked` reads but never writes the
counter, which the embedding reflects by its pure `Bool` type); one
further `register_failure` immediately sets a new `blocked_until`
(re-opening the breaker, `is_blocked` true again) without needing
threshold-many new failures; and `register_success` zeroes the counter
and makes `is_blocked` false at every instant, regardless of
`blocked_until`. -/
theorem failure_tracker_reopen (tr : FailureTracker) (key : String) (now now2 t : Int)
    (hcount : tr.max_failures ≤ tr.failures key)
    (hpassed : tr.cooldowns key ≤ now)
    (hcd : 0 < tr.cooldown_seconds) (hnow2 : 0 ≤ now2) :
    tr.is_blocked now key = false ∧
    (tr.register_failure now2 key).failures key = tr.failures key + 1 ∧
    (tr.register_failure now2 key).cooldowns key = now2 + tr.cooldown_seconds ∧
    (tr.register_failure now2 key).is_blocked now2 key = true ∧
    (tr.register_success key).failures key = 0 ∧
    (tr.register_success key).is_blocked t key = false := by
  have hc := register_failure_cooldowns_eq tr now2 key hcount
  refine ⟨is_blocked_false_of_passed tr now key hpassed,
    register_failure_failures_eq tr now2 key, hc,
    is_blocked_true_of_ahead _ now2 key (by rw [hc]; omega) (by rw [hc]; omega),
    by simp [FailureTracker.register_success],
    by simp [FailureTracker.register_success, FailureTracker.is_blocked]⟩

/-- Witness for `failure_tracker_reopen` at a concrete tracker whose key
`"s"` has 3 consecutive failures (threshold 3) and an expired
`blocked_until` of 100. -/
theorem failure_tracker_reopen_witness :
    (let tr : FailureTracker :=
      ⟨3, 60, fun k => if k = "s" then 3 else 0, fun k => if k = "s" then 100 else 0⟩
     tr.is_blocked 100 "s" = false ∧
     (tr.register_failure 150 "s").failures "s" = tr.failures "s" + 1 ∧
     (tr.register_failure 150 "s").cooldowns "s" = 150 + tr.cooldown_seconds ∧
     (tr.register_failure 150 "s").is_blocked 150 "s" = true ∧
     (tr.register_success "s").failures "s" = 0 ∧
     (tr.register_success "s").is_blocked 500 "s" = false) :=
  failure_tracker_reopen _ "s" 100 150 500 (by decide) (by decide) (by decide) (by decide)

/-- On a key absent from the cache, `seen_recently` answers false and
records the key at the call instant; the window is untouched. -/
lemma seen_recently_fresh (c : DedupeCache) (now : Int) (key : String)
    (h : c.cache key = none) :
    (c.seen_recently now key).1 = false ∧
    (c.seen_recently now key).2.cache key = some now ∧
    (c.seen_recently now key).2.window_seconds = c.window_seconds := by
  simp only [DedupeCache.seen_recently, h]
  simp

/-- On a key recorded within the window, `seen_recently` answers true and
keeps the key's entry. -/
lemma seen_recently_hit (c : DedupeCache) (now : Int) (key : String) (ts : Int)
    (h : c.cache key = some ts) (hw : ¬ now - ts > c.window_seconds) :
    (c.seen_recently now key).1 = true ∧
    (c.seen_recently now key).2.cache key = some ts ∧
    (c.seen_recently now key).2.window_seconds = c.window_seconds := by
  simp only [DedupeCache.seen_recently, h, if_neg hw]
  simp [h, hw]

/-- On a key whose entry has outlived the window, `seen_recently` prunes
it, answers false, and re-records the key. -/
lemma seen_recently_expired (c : DedupeCache) (now : Int) (key : String) (ts : Int)
    (h : c.cache key = some ts) (hw : now - ts > c.window_seconds) :
    (c.seen_recently now key).1 = false ∧
    (c.seen_recently now key).2.cache key = some now ∧
    (c.seen_recently now key).2.window_seconds = c.window_seconds := by
  simp only [DedupeCache.seen_recently, h, if_pos hw]
  simp

/-- C4: on a fresh key the first `seen_recently` call returns false and
records the key at the call instant; a repeat within the window returns
true and leaves the stored entry for that key unchanged; once the window
has elapsed the entry is pruned at lookup time, the same key returns
false again and is re-recorded — so a key returns false at most once per
window. -/
theorem dedupe_first_repeat_expire (c : DedupeCache) (key : String) (t0 t1 t2 : Int)
    (hfresh : c.cache key = none)
    (hrepeat : t1 - t0 ≤ c.window_seconds)
    (hexpire : t2 - t0 > c.window_seconds) :
    (c.seen_recently t0 key).1 = false ∧
    (c.seen_recently t0 key).2.cache key = some t0 ∧
    ((c.seen_recently t0 key).2.seen_recently t1 key).1 = true ∧
    ((c.seen_recently t0 key).2.seen_recently t1 key).2.cache key = some t0 ∧
    (((c.seen_recently t0 key).2.seen_recently t1 key).2.seen_recently t2 key).1 = false ∧
    (((c.seen_recently t0 key).2.seen_recently t1 key).2.seen_recently t2 key).2.cache key
      = some t2 := by
  obtain ⟨hf1, hf2, hf3⟩ := seen_recently_fresh c t0 key hfresh
  obtain ⟨hh1, hh2, hh3⟩ := seen_recently_hit (c.seen_recently t0 key).2 t1 key t0 hf2
    (by rw [hf3]; omega)
  obtain ⟨he1, he2, -⟩ := seen_recently_expired
    ((c.seen_recently t0 key).2.seen_recently t1 key).2 t2 key t0 hh2
    (by rw [hh3, hf3]; omega)
  exact ⟨hf1, hf2, hh1, hh2, he1, he2⟩

/-- Witness for `dedupe_first_repeat_expire`: empty cache with a
60-second window, calls at instants 10, 40 and 100. -/
theorem dedupe_first_repeat_expire_witness :
    (let c : DedupeCache := ⟨60, fun _ => none⟩
     (c.seen_recently 10 "k").1 = false ∧
     (c.seen_recently 10 "k").2.cache "k" = some 10 ∧
     ((c.seen_recently 10 "k").2.seen_recently 40 "k").1 = true ∧
     ((c.seen_recently 10 "k").2.seen_recently 40 "k").2.cache "k" = some 10 ∧
     (((c.seen_recently 10 "k").2.seen_recently 40 "k").2.seen_recently 100 "k").1 = false ∧
     (((c.seen_recently 10 "k").2.seen_recently 40 "k").2.seen_recently 100 "k").2.cache "k"
       = some 100) :=
  dedupe_first_repeat_expire _ "k" 10 40 100 rfl (by decide) (by decide)

/-- C5: a call inside the window returns true and leaves the whole
manager (so the stored timestamp of every key) unchanged — repeated hits
during cooldown never extend it; only a call outside the window returns
false, setting that key's timestamp to the call instant and touching no
other key. -/
theorem cooldown_true_no_refresh (c : CooldownManager) (key : String) (now1 now2 : Int)
    (hin : now1 - c.last_hit key < c.cooldown_seconds)
    (hout : ¬ now2 - c.last_hit key < c.cooldown_seconds) :
    c.in_cooldown now1 key = (true, c) ∧
    (c.in_cooldown now2 key).1 = false ∧
    (c.in_cooldown now2 key).2.last_hit key = now2 ∧
    ∀ k, k ≠ key → (c.in_cooldown now2 key).2.last_hit k = c.last_hit k := by
  refine ⟨?_, ?_, ?_, ?_⟩
  · simp only [CooldownManager.in_cooldown, if_pos hin]
  · simp only [CooldownManager.in_cooldown, if_neg hout]
  · simp only [CooldownManager.in_cooldown, if_neg hout]
    simp
  · intro k hk
    simp only [CooldownManager.in_cooldown, if_neg hout]
    simp [hk]

/-- Witness for `cooldown_true_no_refresh`: a 3-second cooldown whose key
`"k"` fired at instant 10, probed at instants 11 (inside) and 20
(outside). -/
theorem cooldown_true_no_refresh_witness :
    (let c : CooldownManager := ⟨3, fun k => if k = "k" then 10 else 0⟩
     c.in_cooldown 11 "k" = (true, c) ∧
     (c.in_cooldown 20 "k").1 = false ∧
     (c.in_cooldown 20 "k").2.last_hit "k" = 20 ∧
     ∀ k, k ≠ "k" → (c.in_cooldown 20 "k").2.last_hit k = c.last_hit k) :=
  cooldown_true_no_refresh _ "k" 11 20 (by decide) (by decide)

/-- C6: `get_or_create` is idempotent — a second call for the same
(scope, key) returns the same id and leaves the index untouched, never
allocating a second id; the id handed out for a fresh pair is the
deterministic short hash `sha1("scope:key")[:16]`; and the spec's two
calls that differ only in scope over the raw key `"u1"` return different
session ids. -/
theorem get_or_create_idempotent_scoped (idx : SessionIndex)
    (scope key display_name display_name2 : String) :
    ((idx.get_or_create scope key display_name).2.get_or_create scope key display_name2).1
      = (idx.get_or_create scope key display_name).1 ∧
    ((idx.get_or_create scope key display_name).2.get_or_create scope key display_name2).2
      = (idx.get_or_create scope key display_name).2 ∧
    (idx.get_or_create scope key display_name).1
      = (match idx.sessions (scope ++ ":" ++ key) with
         | some entry => entry.id
         | none => pySlice (sha1Hex (strBytes (scope ++ ":" ++ key))) 16) ∧
    ((⟨fun _ => none⟩ : SessionIndex).get_or_create "private" "u1" "Alice").1
      ≠ ((⟨fun _ => none⟩ : SessionIndex).get_or_create "group" "u1" "Team").1 := by
  refine ⟨?_, ?_, ?_, ?_⟩
  · cases h : idx.sessions (scope ++ ":" ++ key) with
    | some entry => simp [SessionIndex.get_or_create, h]
    | none => simp [SessionIndex.get_or_create, h]
  · cases h : idx.sessions (scope ++ ":" ++ key) with
    | some entry => simp [SessionIndex.get_or_create, h]
    | none => simp [SessionIndex.get_or_create, h]
  · cases h : idx.sessions (scope ++ ":" ++ key) with
    | some entry => simp [SessionIndex.get_or_create, h]
    | none => simp [SessionIndex.get_or_create, h]
  · decide

/-- When the target file already exists, `save_image` performs no write:
the returned store is the argument store. -/
lemma save_image_store_of_present (store : SessionStore) (scope session_id : String)
    (image_bytes : List Nat) (mime_type : String) (message_id : Option String)
    (stored : List Nat)
    (h : store.files.files
        (image_target_path store scope session_id image_bytes mime_type message_id)
      = some stored) :
    (store.save_image scope session_id image_bytes mime_type message_id).2 = store := by
  simp [SessionStore.save_image, h]

/-- C7: `save_image` is idempotent for identical input — after the first
call the target file exists (holding the pre-existing content if there
was any, else the new bytes), the second call finds it present and
performs no write, and both calls return identical descriptors. -/
theorem save_image_idempotent (store : SessionStore) (scope session_id : String)
    (image_bytes : List Nat) (mime_type : String) (message_id : Option String) :
    ((store.save_image scope session_id image_bytes mime_type message_id).2.save_image
        scope session_id image_bytes mime_type message_id).1
      = (store.save_image scope session_id image_bytes mime_type message_id).1 ∧
    ((store.save_image scope session_id image_bytes mime_type message_id).2.save_image
        scope session_id image_bytes mime_type message_id).2
      = (store.save_image scope session_id image_bytes mime_type message_id).2 ∧
    (store.save_image scope session_id image_bytes mime_type message_id).2.files.files
        (image_target_path store scope session_id image_bytes mime_type message_id)
      = some ((store.files.files
          (image_target_path store scope session_id image_bytes mime_type message_id)).getD
            image_bytes) := by
  cases h : store.files.files
      (image_target_path store scope session_id image_bytes mime_type message_id) with
  | some stored =>
    have hfs := save_image_store_of_present store scope session_id image_bytes mime_type
      message_id stored h
    refine ⟨by simp only [hfs], by simp only [hfs], ?_⟩
    rw [hfs, h, Option.getD_some]
  | none =>
    have hfs : (store.save_image scope session_id image_bytes mime_type message_id).2
        = { store with files := ⟨fun p =>
            if p = image_target_path store scope session_id image_bytes mime_type message_id
            then some image_bytes else store.files.files p⟩ } := by
      simp [SessionStore.save_image, h]
    have htarget : (store.save_image scope session_id image_bytes mime_type message_id).2.files.files
        (image_target_path
          (store.save_image scope session_id image_bytes mime_type message_id).2
          scope session_id image_bytes mime_type message_id)
        = some image_bytes := by
      rw [hfs]
      simp [image_target_path]
    have hfs2 := save_image_store_of_present
      (store.save_image scope session_id image_bytes mime_type message_id).2
      scope session_id image_bytes mime_type message_id image_bytes htarget
    refine ⟨rfl, hfs2, ?_⟩
    rw [hfs]
    simp [h]

/-- C9: the descriptor returned by `save_image` describes the bytes of
the call — SHA-256 and size of the argument — even when a file with the
derived name already exists with different content, in which case the
write is skipped and the store is unchanged. -/
theorem save_image_descriptor_reflects_input (store : SessionStore)
    (scope session_id : String) (image_bytes stored : List Nat)
    (mime_type : String) (message_id : Option String)
    (hexists : store.files.files
        (image_target_path store scope session_id image_bytes mime_type message_id)
      = some stored)
    (_hdiff : stored ≠ image_bytes) :
    (store.save_image scope session_id image_bytes mime_type message_id).1.sha256
      = sha256Hex image_bytes ∧
    (store.save_image scope session_id image_bytes mime_type message_id).1.size
      = image_bytes.length ∧
    (store.save_image scope session_id image_bytes mime_type message_id).2 = store :=
  ⟨rfl, rfl, save_image_store_of_present store scope session_id image_bytes mime_type
    message_id stored hexists⟩

/-- Witness for `save_image_descriptor_reflects_input`: the target
`data/private/s1/images/m1.png` already holds the byte `9`; saving bytes
`[1, 2, 3]` there skips the write yet reports their hash and size 3. -/
theorem save_image_descriptor_witness :
    (let store : SessionStore :=
      ⟨"data", ⟨fun _ => none⟩, fun _ _ => [],
       ⟨fun p => if p = "data/private/s1/images/m1.png" then some [9] else none⟩⟩
     (store.save_image "private" "s1" [1, 2, 3] "image/png" (some "m1")).1.sha256
       = sha256Hex [1, 2, 3] ∧
     (store.save_image "private" "s1" [1, 2, 3] "image/png" (some "m1")).1.size = 3 ∧
     (store.save_image "private" "s1" [1, 2, 3] "image/png" (some "m1")).2 = store) :=
  save_image_descriptor_reflects_input _ "private" "s1" [1, 2, 3] [9] "image/png"
    (some "m1") (by decide) (by decide)

/-- C10: with a (truthy) fixed canned reply configured for the event's
scope, `_generate_reply` returns it immediately and unconditionally — the
failure tracker and vision cache are untouched, and the result is
identical for any loaded history, any model-client behaviour, and any
call instant, so no history is loaded, no budget check happens, no model
call is made, and no output truncation is applied (the string is returned
verbatim even when its token estimate exceeds the scope's output cap). -/
theorem fixed_reply_short_circuit (cfg : BotConfig) (tracker : FailureTracker)
    (vision_cache : String → Option String) (hist1 hist2 : List HistRecord)
    (msg : IncomingMessage) (session : SessionInfo) (image_meta : Option StoredImage)
    (send1 send2 : List ChatMsg → Except String String) (now1 now2 : Int) (s : String)
    (hfix : fixed_reply_for_scope cfg session.scope = some s) (hne : s ≠ "") :
    generate_reply cfg tracker vision_cache hist1 msg session image_meta send1 now1
      = ⟨s, tracker, vision_cache⟩ ∧
    generate_reply cfg tracker vision_cache hist1 msg session image_meta send1 now1
      = generate_reply cfg tracker vision_cache hist2 msg session image_meta send2 now2 := by
  have ht : truthyS (fixed_reply_for_scope cfg session.scope) = some s := by
    rw [hfix]
    simp [truthyS, hne]
  constructor
  · simp only [generate_reply, ht]
  · simp only [generate_reply, ht]

/-- Witness for `fixed_reply_short_circuit`: a group-scope event with
`group_fixed_reply = "收到"` set, probed with two different histories and
two different model behaviours. -/
theorem fixed_reply_short_circuit_witness :
    (let cfg : BotConfig := { reply := { group_fixed_reply := some "收到" } }
     let tracker : FailureTracker := ⟨3, 60, fun _ => 0, fun _ => 0⟩
     let cache : String → Option String := fun _ => none
     let msg : IncomingMessage :=
       { message_id := "m1", timestamp := 5, sender_id := "u1", sender_name := "Ann",
         content := some "hello", msg_type := "text", is_group := true }
     let session : SessionInfo := ⟨"group", "sid", "g1", "Team"⟩
     let rec1 : HistRecord :=
       { timestamp := 1, direction := "received", sender := "Bob", rtype := "text",
         content := some "old", message_id := "m0", session_key := "g1" }
     generate_reply cfg tracker cache [] msg session none (fun _ => .error "down") 9
       = ⟨"收到", tracker, cache⟩ ∧
     generate_reply cfg tracker cache [] msg session none (fun _ => .error "down") 9
       = generate_reply cfg tracker cache [rec1] msg session none (fun _ => .ok "hi") 11) :=
  fixed_reply_short_circuit _ _ _ [] _ _ _ _ _ _ 9 11 "收到" (by decide) (by decide)

/-- C2: when the model call raises (timeout, transport failure, or the
error of a non-success HTTP status), `_generate_reply` catches it
locally: the configured fallback reply is returned, the session's failure
counter is incremented exactly once (no other key's counter moves), the
vision cache is untouched, and — the embedding being a total function —
no error escapes the handler; there is no retry. -/
theorem model_error_fallback (cfg : BotConfig) (tracker : FailureTracker)
    (vision_cache : String → Option String) (loaded_history : List HistRecord)
    (msg : IncomingMessage) (session : SessionInfo) (image_meta : Option StoredImage)
    (send : List ChatMsg → Except String String) (now : Int) (err : String)
    (hfix : truthyS (fixed_reply_for_scope cfg session.scope) = none)
    (himg : ¬ (msg.msg_type = "image" ∧ should_process_image cfg msg = false))
    (hbudget : ¬ cfg.limits.token_budget - max_output_tokens cfg session.scope ≤ 0)
    (hcache : (match image_meta with
               | some im => vision_cache im.sha256
               | none => none) = (none : Option String))
    (hsend : ∀ ms, send ms = Except.error err) :
    (generate_reply cfg tracker vision_cache loaded_history msg session image_meta
        send now).reply = cfg.failure.fallback_reply ∧
    (generate_reply cfg tracker vision_cache loaded_history msg session image_meta
        send now).tracker.failures session.session_id
      = tracker.failures session.session_id + 1 ∧
    (∀ k, k ≠ session.session_id →
      (generate_reply cfg tracker vision_cache loaded_history msg session image_meta
          send now).tracker.failures k = tracker.failures k) ∧
    (generate_reply cfg tracker vision_cache loaded_history msg session image_meta
        send now).vision_cache = vision_cache := by
  have hg : generate_reply cfg tracker vision_cache loaded_history msg session image_meta
      send now
      = ⟨cfg.failure.fallback_reply,
         tracker.register_failure now session.session_id, vision_cache⟩ := by
    simp only [generate_reply, hfix, if_neg himg, if_neg hbudget, hcache, hsend]
  rw [hg]
  exact ⟨rfl, register_failure_failures_eq tracker now session.session_id,
    fun k hk => register_failure_failures_other tracker now session.session_id k hk, rfl⟩

/-- Witness for `model_error_fallback`: the default configuration, a
private text event, and a model client that always raises. -/
theorem model_error_fallback_witness :
    (let cfg : BotConfig := {}
     let tracker : FailureTracker := ⟨3, 60, fun _ => 0, fun _ => 0⟩
     let cache : String → Option String := fun _ => none
     let msg : IncomingMessage :=
       { message_id := "m1", timestamp := 5, sender_id := "u1", sender_name := "Ann",
         content := some "hi", msg_type := "text", is_group := false }
     let session : SessionInfo := ⟨"private", "sid", "u1", "Ann"⟩
     let send : List ChatMsg → Except String String := fun _ => .error "timeout"
     (generate_reply cfg tracker cache [] msg session none send 7).reply
       = cfg.failure.fallback_reply ∧
     (generate_reply cfg tracker cache [] msg session none send 7).tracker.failures "sid"
       = tracker.failures "sid" + 1 ∧
     (∀ k, k ≠ "sid" →
       (generate_reply cfg tracker cache [] msg session none send 7).tracker.failures k
         = tracker.failures k) ∧
     (generate_reply cfg tracker cache [] msg session none send 7).vision_cache = cache) :=
  model_error_fallback {} _ _ [] _ ⟨"private", "sid", "u1", "Ann"⟩ none _ 7 "timeout"
    (by decide) (by decide) (by decide) rfl (fun _ => rfl)

/-- Media persistence never touches the history logs. -/
lemma image_meta_step_histories (store : SessionStore) (session : SessionInfo)
    (msg : IncomingMessage) :
    (image_meta_step store session msg).2.histories = store.histories := by
  by_cases h : has_image_payload msg <;> simp [image_meta_step, h, SessionStore.save_image]

/-- Session resolution never touches the history logs. -/
lemma resolve_session_histories (store : SessionStore) (msg : IncomingMessage) :
    (resolve_session store msg).2.histories = store.histories := rfl

/-- The history of the resolved session after the inbound append is the
old history plus the inbound record. -/
lemma store_after_inbound_histories (st : BotState) (msg : IncomingMessage) :
    (store_after_inbound st msg).histories (resolve_session st.store msg).1.scope
      (resolve_session st.store msg).1.session_id
      = st.store.histories (resolve_session st.store msg).1.scope
          (resolve_session st.store msg).1.session_id
        ++ [inbound_record msg (resolve_session st.store msg).1
            (image_meta_step (resolve_session st.store msg).2
              (resolve_session st.store msg).1 msg).1] := by
  simp only [store_after_inbound, SessionStore.append_history, image_meta_step_histories,
    resolve_session_histories]
  simp

/-- When the trigger says no, `handle_message` stops right after the
inbound append. -/
lemma handle_message_store_no_trigger (cfg : BotConfig) (reSearch : String → String → Bool)
    (st : BotState) (msg : IncomingMessage) (send : List ChatMsg → Except String String)
    (now : Int)
    (hself : is_self_message cfg msg = false)
    (hseen : (st.dedupe.seen_recently now (unique_key_of msg)).1 = false)
    (hblock : st.failure_tracker.is_blocked now
      (resolve_session st.store msg).1.session_id = false)
    (htrig : should_trigger cfg reSearch msg = false) :
    (handle_message cfg reSearch st msg send now).1.store = store_after_inbound st msg := by
  simp only [handle_message]
  split_ifs <;> simp_all [store_after_inbound]

/-- When the session cooldown blocks, `handle_message` stops right after
the inbound append. -/
lemma handle_message_store_session_cd (cfg : BotConfig) (reSearch : String → String → Bool)
    (st : BotState) (msg : IncomingMessage) (send : List ChatMsg → Except String String)
    (now : Int)
    (hself : is_self_message cfg msg = false)
    (hseen : (st.dedupe.seen_recently now (unique_key_of msg)).1 = false)
    (hblock : st.failure_tracker.is_blocked now
      (resolve_session st.store msg).1.session_id = false)
    (htrig : should_trigger cfg reSearch msg = true)
    (hcd1 : (st.session_cooldown.in_cooldown now
      (resolve_session st.store msg).1.session_id).1 = true) :
    (handle_message cfg reSearch st msg send now).1.store = store_after_inbound st msg := by
  simp only [handle_message]
  split_ifs <;> simp_all [store_after_inbound]

/-- When the sender cooldown blocks, `handle_message` stops right after
the inbound append. -/
lemma handle_message_store_user_cd (cfg : BotConfig) (reSearch : String → String → Bool)
    (st : BotState) (msg : IncomingMessage) (send : List ChatMsg → Except String String)
    (now : Int)
    (hself : is_self_message cfg msg = false)
    (hseen : (st.dedupe.seen_recently now (unique_key_of msg)).1 = false)
    (hblock : st.failure_tracker.is_blocked now
      (resolve_session st.store msg).1.session_id = false)
    (htrig : should_trigger cfg reSearch msg = true)
    (hcd1 : (st.session_cooldown.in_cooldown now
      (resolve_session st.store msg).1.session_id).1 = false)
    (hcd2 : (st.user_cooldown.in_cooldown now msg.sender_id).1 = true) :
    (handle_message cfg reSearch st msg send now).1.store = store_after_inbound st msg := by
  simp only [handle_message]
  split_ifs <;> simp_all [store_after_inbound]

/-- On the full reply path, `handle_message` appends the outbound record
exactly when the generated reply is nonempty. -/
lemma handle_message_store_replied (cfg : BotConfig) (reSearch : String → String → Bool)
    (st : BotState) (msg : IncomingMessage) (send : List ChatMsg → Except String String)
    (now : Int)
    (hself : is_self_message cfg msg = false)
    (hseen : (st.dedupe.seen_recently now (unique_key_of msg)).1 = false)
    (hblock : st.failure_tracker.is_blocked now
      (resolve_session st.store msg).1.session_id = false)
    (htrig : should_trigger cfg reSearch msg = true)
    (hcd1 : (st.session_cooldown.in_cooldown now
      (resolve_session st.store msg).1.session_id).1 = false)
    (hcd2 : (st.user_cooldown.in_cooldown now msg.sender_id).1 = false) :
    (handle_message cfg reSearch st msg send now).1.store
      = if (gen_after cfg st msg send now).reply ≠ "" then
          (store_after_inbound st msg).append_history
            (resolve_session st.store msg).1.scope
            (resolve_session st.store msg).1.session_id
            (reply_record (resolve_session st.store msg).1
              (gen_after cfg st msg send now).reply now)
        else store_after_inbound st msg := by
  simp only [handle_message]
  split_ifs <;> simp_all [store_after_inbound, gen_after, SessionStore.load_history]

/-- C8: for every inbound event passing the self-message filter, the
dedupe check and the failure-tracker block check, the event is appended
to the resolved session's history exactly once — the new history is the
old one plus the inbound record, followed at most by one outbound
(`"sent"`) record — even when trigger evaluation decides against a reply
or a cooldown gate fires, because the append happens before the trigger
early-return and before the cooldown gates. -/
theorem handle_message_appends_inbound_once (cfg : BotConfig)
    (reSearch : String → String → Bool) (st : BotState) (msg : IncomingMessage)
    (send : List ChatMsg → Except String String) (now : Int)
    (hself : is_self_message cfg msg = false)
    (hseen : (st.dedupe.seen_recently now (unique_key_of msg)).1 = false)
    (hblock : st.failure_tracker.is_blocked now
      (resolve_session st.store msg).1.session_id = false) :
    ∃ rest : List HistRecord,
      (handle_message cfg reSearch st msg send now).1.store.histories
          (resolve_session st.store msg).1.scope (resolve_session st.store msg).1.session_id
        = st.store.histories (resolve_session st.store msg).1.scope
            (resolve_session st.store msg).1.session_id
          ++ inbound_record msg (resolve_session st.store msg).1
              (image_meta_step (resolve_session st.store msg).2
                (resolve_session st.store msg).1 msg).1 :: rest ∧
      (rest = [] ∨ ∃ r, rest = [r] ∧ r.direction = "sent") ∧
      (should_trigger cfg reSearch msg = false → rest = []) ∧
      ((st.session_cooldown.in_cooldown now
          (resolve_session st.store msg).1.session_id).1 = true → rest = []) := by
  by_cases htrig : should_trigger cfg reSearch msg = false
  · refine ⟨[], ?_, Or.inl rfl, fun _ => rfl, fun _ => rfl⟩
    rw [handle_message_store_no_trigger cfg reSearch st msg send now hself hseen hblock htrig,
      store_after_inbound_histories]
  · have htrig' : should_trigger cfg reSearch msg = true := by
      revert htrig
      cases should_trigger cfg reSearch msg <;> simp
    by_cases hcd1 : (st.session_cooldown.in_cooldown now
        (resolve_session st.store msg).1.session_id).1 = true
    · refine ⟨[], ?_, Or.inl rfl, fun _ => rfl, fun _ => rfl⟩
      rw [handle_message_store_session_cd cfg reSearch st msg send now hself hseen hblock
        htrig' hcd1, store_after_inbound_histories]
    · have hcd1' : (st.session_cooldown.in_cooldown now
          (resolve_session st.store msg).1.session_id).1 = false := by
        revert hcd1
        cases (st.session_cooldown.in_cooldown now
          (resolve_session st.store msg).1.session_id).1 <;> simp
      by_cases hcd2 : (st.user_cooldown.in_cooldown now msg.sender_id).1 = true
      · refine ⟨[], ?_, Or.inl rfl, fun _ => rfl, fun _ => rfl⟩
        rw [handle_message_store_user_cd cfg reSearch st msg send now hself hseen hblock
          htrig' hcd1' hcd2, store_after_inbound_histories]
      · have hcd2' : (st.user_cooldown.in_cooldown now msg.sender_id).1 = false := by
          revert hcd2
          cases (st.user_cooldown.in_cooldown now msg.sender_id).1 <;> simp
        have hrepl := handle_message_store_replied cfg reSearch st msg send now hself hseen
          hblock htrig' hcd1' hcd2'
        by_cases hrep : (gen_after cfg st msg send now).reply = ""
        · rw [if_neg (by simp [hrep])] at hrepl
          refine ⟨[], ?_, Or.inl rfl, fun _ => rfl, fun _ => rfl⟩
          rw [hrepl, store_after_inbound_histories]
        · rw [if_pos hrep] at hrepl
          refine ⟨[reply_record (resolve_session st.store msg).1
              (gen_after cfg st msg send now).reply now], ?_, ?_,
            fun h => absurd h htrig, fun h => absurd h (by simp [hcd1'])⟩
          · rw [hrepl]
            simp only [SessionStore.append_history, store_after_inbound_histories]
            simp
          · exact Or.inr ⟨_, rfl, rfl⟩

/-- Witness for `handle_message_appends_inbound_once`: a fresh bot state,
a private text event under the default configuration (private mode
`"always"`), and a model client that answers `"hi"`. -/
theorem handle_message_appends_inbound_once_witness :
    (let cfg : BotConfig := {}
     let reS : String → String → Bool := fun _ _ => false
     let st : BotState :=
       ⟨⟨"data", ⟨fun _ => none⟩, fun _ _ => [], ⟨fun _ => none⟩⟩,
        ⟨60, fun _ => none⟩, ⟨3, fun _ => 0⟩, ⟨2, fun _ => 0⟩,
        ⟨3, 60, fun _ => 0, fun _ => 0⟩, fun _ => none⟩
     let msg : IncomingMessage :=
       { message_id := "m1", timestamp := 5, sender_id := "u1", sender_name := "Ann",
         content := some "hello", msg_type := "text", is_group := false }
     let send : List ChatMsg → Except String String := fun _ => .ok "hi"
     ∃ rest : List HistRecord,
       (handle_message cfg reS st msg send 1000).1.store.histories
           (resolve_session st.store msg).1.scope
           (resolve_session st.store msg).1.session_id
         = st.store.histories (resolve_session st.store msg).1.scope
             (resolve_session st.store msg).1.session_id
           ++ inbound_record msg (resolve_session st.store msg).1
               (image_meta_step (resolve_session st.store msg).2
                 (resolve_session st.store msg).1 msg).1 :: rest ∧
       (rest = [] ∨ ∃ r, rest = [r] ∧ r.direction = "sent") ∧
       (should_trigger cfg reS msg = false → rest = []) ∧
       ((st.session_cooldown.in_cooldown 1000
           (resolve_session st.store msg).1.session_id).1 = true → rest = [])) :=
  handle_message_appends_inbound_once {} _ _ _ _ 1000 (by decide) (by decide) (by decide)

/-- `_build_latest_message` always yields the `latestShape` form. -/
lemma build_latest_shape (msg : IncomingMessage) : latestShape (build_latest_message msg) := by
  unfold build_latest_message
  split
  · exact ⟨"user", Or.inr ⟨_, _, rfl⟩⟩
  · exact ⟨"user", Or.inl ⟨_, rfl⟩⟩

/-- Every message produced by `_history_to_messages` has string content. -/
lemma history_to_messages_str (history : List HistRecord) :
    ∀ m ∈ history_to_messages history, ∃ s, m.content = MContent.str s := by
  intro m hm
  simp only [history_to_messages, List.mem_map] at hm
  obtain ⟨r, -, rfl⟩ := hm
  exact ⟨_, rfl⟩

/-- `_truncate_latest` preserves the `latestShape` form. -/
lemma truncate_latest_shape (limits : LimitsConfig) (b : Option Int) (l : List ChatMsg)
    (h : latestShape l) : latestShape (truncate_latest limits l b) := by
  obtain ⟨role, ⟨s, rfl⟩ | ⟨t, u, rfl⟩⟩ := h
  · exact ⟨role, Or.inl ⟨_, rfl⟩⟩
  · exact ⟨role, Or.inr ⟨_, _, rfl⟩⟩

/-- Truncating text to a positive token bound lands within the bound. -/
lemma truncate_text_tokens_le (s : String) (b : Int) (hb : 1 ≤ b) :
    (estimate_tokens (truncate_text_to_tokens s b) : Int) ≤ b := by
  unfold truncate_text_to_tokens
  split
  next h => exact h
  next h =>
    have hlen : pyLen (pySlice s (b * 4)) ≤ (b * 4).toNat := by
      simp only [pySlice, pyLen]
      rw [if_pos (by omega : (0 : Int) ≤ b * 4)]
      simp [List.length_take]
    unfold estimate_tokens
    split
    next => omega
    next hne => omega

/-- A single-message list estimates as its one message. -/
lemma estimate_messages_single (m : ChatMsg) :
    estimate_messages_tokens [m] = estimate_message_tokens m := by
  simp [estimate_messages_tokens]

/-- `estimate_messages_tokens` is additive across append. -/
lemma estimate_messages_append (a b : List ChatMsg) :
    estimate_messages_tokens (a ++ b)
      = estimate_messages_tokens a + estimate_messages_tokens b := by
  simp [estimate_messages_tokens]

/-- Step-3 truncation to an explicit positive budget lands within it. -/
lemma truncate_latest_tokens_le (limits : LimitsConfig) (l : List ChatMsg) (b : Int)
    (hb : 1 ≤ b) (h : latestShape l) :
    (estimate_messages_tokens (truncate_latest limits l (some b)) : Int) ≤ b := by
  have hbne : ¬ b = 0 := by omega
  obtain ⟨role, ⟨s, rfl⟩ | ⟨t, u, rfl⟩⟩ := h
  · simp only [truncate_latest, if_neg hbne, estimate_messages_single,
      estimate_message_tokens]
    exact truncate_text_tokens_le s b hb
  · simp only [truncate_latest, if_neg hbne, estimate_messages_single,
      estimate_message_tokens, List.map_cons, List.map_nil, List.sum_cons,
      List.sum_nil, Nat.add_zero]
    exact truncate_text_tokens_le t b hb

/-- The history walk keeps an initial segment of the (reversed) history. -/
lemma walk_history_take (r : Int) (l : List ChatMsg) :
    ∃ n, walk_history r l = l.take n := by
  induction l generalizing r with
  | nil => exact ⟨0, rfl⟩
  | cons a t ih =>
    by_cases hc : (estimate_tokens_py a.content : Int) ≤ r
    · obtain ⟨n, hn⟩ := ih (r - estimate_tokens_py a.content)
      exact ⟨n + 1, by simp [walk_history, hc, hn]⟩
    · exact ⟨0, by simp [walk_history, hc]⟩

/-- The walked records' token estimates sum to at most the remaining
budget. -/
lemma walk_history_sum_le (r : Int) (hr : 0 ≤ r) (l : List ChatMsg) :
    (((walk_history r l).map (fun m => estimate_tokens_py m.content)).sum : Int) ≤ r := by
  induction l generalizing r with
  | nil => simpa using hr
  | cons a t ih =>
    by_cases hc : (estimate_tokens_py a.content : Int) ≤ r
    · have h2 := ih (r - estimate_tokens_py a.content) (by omega)
      simp only [walk_history, hc, if_true, List.map_cons, List.sum_cons]
      push_cast at h2 ⊢
      omega
    · simpa [walk_history, hc] using hr

/-- Everything the walk keeps comes from the walked list. -/
lemma walk_history_subset (r : Int) (l : List ChatMsg) :
    ∀ m ∈ walk_history r l, m ∈ l := by
  obtain ⟨n, hn⟩ := walk_history_take r l
  rw [hn]
  exact fun m hm => List.take_subset n l hm

/-- The reverse of a take of the reverse is a drop (a contiguous
most-recent suffix in original order). -/
lemma reverse_take_reverse_eq_drop (l : List ChatMsg) (n : Nat) :
    ∃ k, (l.reverse.take n).reverse = l.drop k := by
  have h2 : l.reverse.take n <+: l.reverse := List.take_prefix n l.reverse
  have h3 : ((l.reverse.take n).reverse).reverse <+: l.reverse := by
    rwa [List.reverse_reverse]
  have h4 : (l.reverse.take n).reverse <:+ l := List.reverse_prefix.mp h3
  obtain ⟨t, ht⟩ := h4
  have h5 := List.drop_left t (l.reverse.take n).reverse
  rw [ht] at h5
  exact ⟨t.length, h5.symm⟩

/-- Core budget property of `_trim_context`, for any system block whose
estimate is strictly below the budget, any history of string-content
messages (the `_history_to_messages` image), and any `latestShape` new
message: the assembled prompt fits the budget and keeps a contiguous
most-recent history suffix in chronological order. -/
lemma trim_context_budget_general (limits : LimitsConfig)
    (system_messages history latest : List ChatMsg) (budget : Int)
    (hsys : (estimate_messages_tokens system_messages : Int) < budget)
    (hshape : latestShape latest)
    (hhist : ∀ m ∈ history, ∃ s, m.content = MContent.str s) :
    ((estimate_messages_tokens
        (trim_context limits system_messages history latest budget) : Int) ≤ budget) ∧
    ∃ k latest2, trim_context limits system_messages history latest budget
      = system_messages ++ ((history.drop k) ++ latest2) := by
  have heq : trim_context limits system_messages history latest budget
      = system_messages
        ++ (walk_history
            (budget - ((estimate_messages_tokens system_messages : Int)
              + (estimate_messages_tokens
                  (if ((estimate_messages_tokens system_messages : Int)
                        + (estimate_messages_tokens
                            (if (estimate_messages_tokens latest : Int)
                                  > limits.max_single_message_tokens then
                                truncate_latest limits latest none
                              else latest) : Int)) > budget then
                      truncate_latest limits
                        (if (estimate_messages_tokens latest : Int)
                              > limits.max_single_message_tokens then
                            truncate_latest limits latest none
                          else latest)
                        (some (budget - (estimate_messages_tokens system_messages : Int)))
                    else
                      (if (estimate_messages_tokens latest : Int)
                            > limits.max_single_message_tokens then
                          truncate_latest limits latest none
                        else latest)) : Int)))
            history.reverse).reverse
        ++ (if ((estimate_messages_tokens system_messages : Int)
                  + (estimate_messages_tokens
                      (if (estimate_messages_tokens latest : Int)
                            > limits.max_single_message_tokens then
                          truncate_latest limits latest none
                        else latest) : Int)) > budget then
              truncate_latest limits
                (if (estimate_messages_tokens latest : Int)
                      > limits.max_single_message_tokens then
                    truncate_latest limits latest none
                  else latest)
                (some (budget - (estimate_messages_tokens system_messages : Int)))
            else
              (if (estimate_messages_tokens latest : Int)
                    > limits.max_single_message_tokens then
                  truncate_latest limits latest none
                else latest)) := rfl
  set L1 : List ChatMsg :=
    if (estimate_messages_tokens latest : Int) > limits.max_single_message_tokens then
      truncate_latest limits latest none
    else latest with hL1
  set L2 : List ChatMsg :=
    if ((estimate_messages_tokens system_messages : Int)
          + (estimate_messages_tokens L1 : Int)) > budget then
      truncate_latest limits L1
        (some (budget - (estimate_messages_tokens system_messages : Int)))
    else L1 with hL2
  have hL1shape : latestShape L1 := by
    rw [hL1]
    split
    · exact truncate_latest_shape limits none latest hshape
    · exact hshape
  have hL2le : (estimate_messages_tokens system_messages : Int)
      + (estimate_messages_tokens L2 : Int) ≤ budget := by
    rw [hL2]
    split
    next hc =>
      have hb : 1 ≤ budget - (estimate_messages_tokens system_messages : Int) := by omega
      have := truncate_latest_tokens_le limits L1
        (budget - (estimate_messages_tokens system_messages : Int)) hb hL1shape
      omega
    next hc => omega
  have hr : 0 ≤ budget - ((estimate_messages_tokens system_messages : Int)
      + (estimate_messages_tokens L2 : Int)) := by omega
  set rem : Int := budget - ((estimate_messages_tokens system_messages : Int)
      + (estimate_messages_tokens L2 : Int)) with hrem
  have hwalksum := walk_history_sum_le rem hr history.reverse
  have hagree : ((walk_history rem history.reverse).map estimate_message_tokens)
      = ((walk_history rem history.reverse).map (fun m => estimate_tokens_py m.content)) := by
    apply List.map_congr_left
    intro m hm
    obtain ⟨s, hs⟩ := hhist m (List.mem_reverse.mp (walk_history_subset rem history.reverse m hm))
    simp [estimate_message_tokens, estimate_tokens_py, hs]
  constructor
  · rw [heq]
    rw [estimate_messages_append, estimate_messages_append]
    have hksum : (estimate_messages_tokens (walk_history rem history.reverse).reverse : Int)
        ≤ rem := by
      unfold estimate_messages_tokens
      rw [List.map_reverse, List.sum_reverse, hagree]
      exact hwalksum
    omega
  · obtain ⟨n, hn⟩ := walk_history_take rem history.reverse
    obtain ⟨k, hk⟩ := reverse_take_reverse_eq_drop history n
    refine ⟨k, L2, ?_⟩
    rw [heq, hn, hk, List.append_assoc]

/-- C1 (amended): for every system prompt whose token estimate is
strictly below the positive budget `B`, every ordered history of records,
and every new user message, the prompt `_trim_context` assembles (after
the new message is truncated per steps 2-3) has total estimated tokens at
most `B`, and the kept history messages are a contiguous most-recent
suffix of the converted history, restored to chronological order. -/
theorem trim_context_respects_budget (limits : LimitsConfig) (sysPrompt : String)
    (records : List HistRecord) (msg : IncomingMessage) (budget : Int)
    (hsys : (estimate_tokens sysPrompt : Int) < budget) :
    ((estimate_messages_tokens
        (trim_context limits [⟨"system", MContent.str sysPrompt⟩]
          (history_to_messages records) (build_latest_message msg) budget) : Int)
      ≤ budget) ∧
    ∃ k latest2, trim_context limits [⟨"system", MContent.str sysPrompt⟩]
        (history_to_messages records) (build_latest_message msg) budget
      = [⟨"system", MContent.str sysPrompt⟩]
        ++ ((history_to_messages records).drop k ++ latest2) :=
  trim_context_budget_general limits [⟨"system", MContent.str sysPrompt⟩]
    (history_to_messages records) (build_latest_message msg) budget
    (by simpa [estimate_messages_single, estimate_message_tokens] using hsys)
    (build_latest_shape msg) (history_to_messages_str records)

/-- Witness for `trim_context_respects_budget`: default limits, a
4-character system prompt, one history record, a text message, budget
100. -/
theorem trim_context_respects_budget_witness :
    (let rec1 : HistRecord :=
      { timestamp := 1, direction := "received", sender := "Bob", rtype := "text",
        content := some "earlier message", message_id := "m0", session_key := "u1" }
     let msg : IncomingMessage :=
      { message_id := "m1", timestamp := 5, sender_id := "u1", sender_name := "Ann",
        content := some "hello there", msg_type := "text", is_group := false }
     ((estimate_messages_tokens
        (trim_context {} [⟨"system", MContent.str "abcd"⟩]
          (history_to_messages [rec1]) (build_latest_message msg) 100) : Int) ≤ 100) ∧
     ∃ k latest2, trim_context {} [⟨"system", MContent.str "abcd"⟩]
        (history_to_messages [rec1]) (build_latest_message msg) 100
       = [⟨"system", MContent.str "abcd"⟩]
         ++ ((history_to_messages [rec1]).drop k ++ latest2)) :=
  trim_context_respects_budget {} "abcd" _ _ 100 (by decide)

/-- C1 counterexample: with the default limits, a positive budget of 2, a
system message of 2 estimated tokens, empty history, and a 40-character
new message, the assembled prompt estimates 12 tokens — the budget is
exceeded (steps 2-3 truncate to `budget - system_tokens = 0`, and the
Python `or`-defaulting turns a zero budget into the 2048-token
single-message cap, leaving the new message untruncated). -/
theorem trim_context_budget_counterexample :
    (0 : Int) < 2 ∧
    ¬ ((estimate_messages_tokens
        (trim_context {} [⟨"system", MContent.str "aaaaaaaa"⟩]
          (history_to_messages [])
          (build_latest_message
            { message_id := "m1", timestamp := 0, sender_id := "u1", sender_name := "A",
              content := some "xxxxxxxxxxxxxxxxxxxxxxxxxxxxxxxxxxxxxxxx",
              msg_type := "text", is_group := false }) 2) : Int) ≤ 2) := by
  constructor
  · decide
  · decide

end LiteBot
